import Mathlib

/-!
The `ddpserver` package of goteor: a shallow embedding of the connection and server logic.

The development follows `ddpserver/connection.go`, `ddpserver/publications.go`,
`ddpserver/methods.go`, `ddpserver/server.go` and the handlers registered in `server.go`.

Conventions of the embedding.

* A Go `*Connection` is one mutable object; every handler is a function from the state of
  that object (and of the objects it references: the `send` channel, the `subscriptions`
  map, the websocket) to the state after the call.
* `c.send` is modelled by the sequence of messages enqueued on it, oldest first.  The
  bytes produced by `json.Marshal` are represented by the value that was marshalled.
* `generateID` is not among the sources; every function that calls it takes the generator
  as a parameter.
* Handlers are Go closures.  A method handler is a pure function of its context.  A
  publication handler is the list of operations it performs on the context value it
  receives: assignments to the exported fields and calls of the exported methods.
* The field `calls` of `Connection` is instrumentation: it records each handler call
  (`fn(ctx)`, `handler(*ctx)`) in order and is read by no function.
-/

namespace ddpserver

/-! ## Values and messages -/

/-- Go `interface{}` values that travel as parameters and results.  `unsupported` stands for
the values `json.Marshal` rejects (channels, functions, ...). -/
inductive Value where
  | null
  | bool (b : Bool)
  | num (n : Int)
  | str (s : String)
  | emptyList
  | unsupported
  deriving DecidableEq, Repr

/-- Modelled from the spec: the declaration of `Error` is not among the sources; the four
fields are those of the composite literals in `connection.go`
(error type, error code, reason, message).  `Type_` is the Go field `Type`. -/
structure Error where
  Type_ : String
  Error : String
  Reason : String
  Message : String
  deriving DecidableEq, Repr

/-- Modelled from the spec: the declaration of `Message` is not among the sources; the
fields are those `connection.go`, `publications.go` and `methods.go` read or write.  A field
the envelope does not carry has Go's zero value (`Error` is a struct-valued field, as the
literal in `handleUnsubscribe` shows). -/
structure Message where
  Msg : String := ""
  ID : String := ""
  Version : String := ""
  Method : String := ""
  Name : String := ""
  Params : List Value := []
  Error : Error := { Type_ := "", Error := "", Reason := "", Message := "" }
  deriving DecidableEq, Repr

/-- The values stored under the keys of the `map[string]string` and
`map[string]interface{}` literals that the send functions build. -/
inductive JVal where
  | str (s : String)
  | strs (l : List String)
  | error (e : Error)
  | value (v : Value)
  deriving DecidableEq, Repr

/-- What is handed to `writeMessage`: a map literal (its entries in source order) or a
`Message` struct. -/
inductive Outbound where
  | object (entries : List (String × JVal))
  | message (m : Message)
  deriving DecidableEq, Repr

/-- Value stored under key `k` of a map literal. -/
def lookupEntry (k : String) : List (String × JVal) → Option JVal
  | [] => none
  | (k', v) :: rest => if k' = k then some v else lookupEntry k rest

/-- Field `k` of an outbound message, as the client reads it from the JSON object. -/
def Outbound.field (o : Outbound) (k : String) : Option JVal :=
  match o with
  | .object entries => lookupEntry k entries
  | .message m =>
    if k = "msg" then some (.str m.Msg)
    else if k = "id" then some (.str m.ID)
    else if k = "error" then some (.error m.Error)
    else none

/-- Whether `json.Marshal` accepts the value. -/
def Value.marshals : Value → Bool
  | .unsupported => false
  | _ => true

/-- Whether `json.Marshal` accepts the map entry. -/
def JVal.marshals : JVal → Bool
  | .value v => v.marshals
  | _ => true

/-- Whether `json.Marshal` accepts the message. -/
def Outbound.marshals : Outbound → Bool
  | .object entries => entries.all fun e => e.2.marshals
  | .message m => m.Params.all Value.marshals

/-! ## Go maps -/

/-- A Go `map[κ]α`: association list in which every key occurs at most once when built with
`set` from the empty map. -/
abbrev GoMap (κ α : Type) := List (κ × α)

/-- Map read `m[k]` with the comma-ok flag folded into `Option`. -/
def GoMap.get {κ α : Type} [DecidableEq κ] (m : GoMap κ α) (k : κ) : Option α :=
  match m with
  | [] => none
  | (k', v) :: rest => if k' = k then some v else GoMap.get rest k

/-- Map write `m[k] = v`. -/
def GoMap.set {κ α : Type} [DecidableEq κ] (m : GoMap κ α) (k : κ) (v : α) : GoMap κ α :=
  match m with
  | [] => [(k, v)]
  | (k', v') :: rest => if k' = k then (k, v) :: rest else (k', v') :: GoMap.set rest k v

/-- Builtin `delete(m, k)`. -/
def GoMap.delete {κ α : Type} [DecidableEq κ] (m : GoMap κ α) (k : κ) : GoMap κ α :=
  match m with
  | [] => []
  | (k', v') :: rest => if k' = k then GoMap.delete rest k else (k', v') :: GoMap.delete rest k

/-! ## Connection state -/

/-- Protocol version. -/
def protocolVersion : String := "1"

/-- The fields of `Connection` that `*c` copies by value.  The remaining fields of a copy
(`server`, `conn`, `send`, `subscriptions`) are references to the objects of the original. -/
structure ConnCopy where
  connected : Bool
  sessionID : String
  userID : String
  deriving DecidableEq, Repr

/-- `PublicationContext` of `publications.go`. -/
structure PublicationContext where
  ID : String
  Params : List Value
  conn : ConnCopy
  ready : Bool
  deriving DecidableEq, Repr

/-- `MethodContext` of `methods.go`. -/
structure MethodContext where
  ID : String
  Params : List Value
  conn : ConnCopy
  done : Bool
  updated : Bool
  deriving DecidableEq, Repr

/-- One recorded handler call. -/
inductive Call where
  | method (name : String) (ctx : MethodContext)
  | publication (name : String) (ctx : PublicationContext)
  deriving DecidableEq, Repr

/-- State of one `Connection` object and of what it references.  `connClosed` is the state of
the websocket `c.conn` after `Close()`. -/
structure Connection where
  connected : Bool := false
  sessionID : String := ""
  send : List Outbound := []
  subscriptions : GoMap String PublicationContext := []
  userID : String := ""
  connClosed : Bool := false
  calls : List Call := []
  deriving DecidableEq, Repr

/-- The dereference `*c` as far as a context keeps it by value. -/
def Connection.copy (c : Connection) : ConnCopy :=
  { connected := c.connected, sessionID := c.sessionID, userID := c.userID }

/-- `writeMessage`: marshal, then enqueue on `c.send`; a marshalling error enqueues nothing.
The returned error is dropped, as every caller in the handlers drops it. -/
def writeMessage (c : Connection) (msg : Outbound) : Connection :=
  if msg.marshals then { c with send := c.send ++ [msg] } else c

/-- `sendConnected`. -/
def sendConnected (c : Connection) : Connection :=
  writeMessage c (.object [("msg", .str "connected"), ("session", .str c.sessionID)])

/-- `sendFailed`. -/
def sendFailed (c : Connection) : Connection :=
  writeMessage c (.object [("msg", .str "failed"), ("version", .str protocolVersion)])

/-- `handleConnect`. -/
def handleConnect (generateID : Nat → String) (c : Connection) (msg : Message) : Connection :=
  if msg.Version ≠ protocolVersion then
    let c := sendFailed c
    { c with connClosed := true }
  else
    let c := { c with sessionID := generateID 17 }
    sendConnected c

/-- `sendPing`. -/
def sendPing (c : Connection) : Connection :=
  writeMessage c (.object [("msg", .str "ping")])

/-- `sendPong`: the id is echoed when it is not empty. -/
def sendPong (c : Connection) (id : String) : Connection :=
  let msg : List (String × JVal) := [("msg", .str "pong")]
  let msg := if id ≠ "" then msg ++ [("id", .str id)] else msg
  writeMessage c (.object msg)

/-- `handlePing`. -/
def handlePing (c : Connection) (msg : Message) : Connection :=
  sendPong c msg.ID

/-- `handlePong`: only the read deadline of the websocket moves, which is not part of the
state. -/
def handlePong (c : Connection) (_msg : Message) : Connection :=
  c

/-! ## Methods -/

/-- `MethodHandler`: the pair the Go function returns; `none` is the nil `*Error`. -/
abbrev MethodHandler := MethodContext → Value × Option Error

/-- What a publication handler can do with the `PublicationContext` value it is given:
assign its exported fields `ID` and `Params`, and call its exported methods. -/
inductive PubCall where
  | SetID (id : String)
  | SetParams (params : List Value)
  | Ready
  | Added (collection id : String) (fields : GoMap String Value)
  | Changed (collection id : String) (fields : GoMap String Value)
  | Removed (collection id : String)
  deriving DecidableEq, Repr

/-- `PublicationHandler`: the operations the Go function performs on its context, in order.
The pair it returns is dropped by `handleSubscribe` and is not represented. -/
abbrev PublicationHandler := PublicationContext → List PubCall

/-- The handler tables of `Server` (`server.go`), which the connection reads through
`c.server`. -/
structure Server where
  id : String := "0"
  methods : GoMap String MethodHandler := []
  publications : GoMap String PublicationHandler := []

/-- `Server.Method`. -/
def Server.Method (s : Server) (name : String) (fn : MethodHandler) : Server :=
  { s with methods := s.methods.set name fn }

/-- `Server.Publish`. -/
def Server.Publish (s : Server) (name : String) (fn : PublicationHandler) : Server :=
  { s with publications := s.publications.set name fn }

/-- `NewMethodContext`. -/
def NewMethodContext (m : Message) (conn : ConnCopy) : MethodContext :=
  { ID := m.ID, Params := m.Params, conn := conn, done := false, updated := false }

/-- `sendMethodResult`. -/
def sendMethodResult (c : Connection) (ctx : MethodContext) (result : Value) :
    MethodContext × Connection :=
  let ctx := { ctx with done := true }
  (ctx, writeMessage c (.object
    [("msg", .str "result"), ("id", .str ctx.ID), ("result", .value result)]))

/-- `sendMethodError`. -/
def sendMethodError (c : Connection) (ctx : MethodContext) (e : Error) :
    MethodContext × Connection :=
  let ctx := { ctx with done := true }
  (ctx, writeMessage c (.object
    [("msg", .str "result"), ("id", .str ctx.ID), ("error", .error e)]))

/-- `sendMethodUpdated`. -/
def sendMethodUpdated (c : Connection) (ctx : MethodContext) : MethodContext × Connection :=
  let ctx := { ctx with updated := true }
  (ctx, writeMessage c (.object [("msg", .str "updated"), ("methods", .strs [ctx.ID])]))

/-- The error `handleMethod` builds for a name with no handler. -/
def unknownMethodError (name : String) : Error :=
  { Type_ := "Method.Error",
    Error := "unknown-method",
    Reason := "Method '" ++ name ++ "' not found",
    Message := "Method '" ++ name ++ "' not found [unknown]" }

/-- `handleMethod`. -/
def handleMethod (s : Server) (c : Connection) (msg : Message) : Connection :=
  let ctx := NewMethodContext msg c.copy
  match s.methods.get msg.Method with
  | none => (sendMethodError c ctx (unknownMethodError msg.Method)).2
  | some fn =>
    let c := { c with calls := c.calls ++ [Call.method msg.Method ctx] }
    match fn ctx with
    | (_, some err) => (sendMethodError c ctx err).2
    | (r, none) =>
      let (ctx, c) := sendMethodResult c ctx r
      (sendMethodUpdated c ctx).2

/-! ## Publications -/

/-- `NewPublicationContext`. -/
def NewPublicationContext (m : Message) (conn : ConnCopy) : PublicationContext :=
  { ID := m.ID, Params := m.Params, conn := conn, ready := false }

/-- `sendSubscriptionError`. -/
def sendSubscriptionError (c : Connection) (ctx : PublicationContext) (e : Error) : Connection :=
  writeMessage c (.object [("msg", .str "nosub"), ("id", .str ctx.ID), ("error", .error e)])

/-- `sendSubscriptionReady`, called on the connection copy of a context: the write goes to
the channel the copy shares with the connection. -/
def sendSubscriptionReady (c : Connection) (ctx : PublicationContext) :
    PublicationContext × Connection :=
  let ctx := { ctx with ready := true }
  (ctx, writeMessage c (.object [("msg", .str "ready"), ("subs", .strs [ctx.ID])]))

/-- `PublicationContext.Ready`. -/
def PublicationContext.Ready (ctx : PublicationContext) (c : Connection) :
    PublicationContext × Connection :=
  let ctx := { ctx with ready := true }
  sendSubscriptionReady c ctx

/-- `PublicationContext.Added`: the body is empty. -/
def PublicationContext.Added (ctx : PublicationContext) (c : Connection)
    (_collection _id : String) (_fields : GoMap String Value) :
    PublicationContext × Connection :=
  (ctx, c)

/-- `PublicationContext.Changed`: the body is empty. -/
def PublicationContext.Changed (ctx : PublicationContext) (c : Connection)
    (_collection _id : String) (_fields : GoMap String Value) :
    PublicationContext × Connection :=
  (ctx, c)

/-- `PublicationContext.Removed`: the body is empty. -/
def PublicationContext.Removed (ctx : PublicationContext) (c : Connection)
    (_collection _id : String) : PublicationContext × Connection :=
  (ctx, c)

/-- One operation of a handler on the context value it owns. -/
def PubCall.run (call : PubCall) (ctx : PublicationContext) (c : Connection) :
    PublicationContext × Connection :=
  match call with
  | .SetID id => ({ ctx with ID := id }, c)
  | .SetParams params => ({ ctx with Params := params }, c)
  | .Ready => ctx.Ready c
  | .Added collection id fields => ctx.Added c collection id fields
  | .Changed collection id fields => ctx.Changed c collection id fields
  | .Removed collection id => ctx.Removed c collection id

/-- The body of a handler: its operations in order, on its own context value. -/
def runCalls : List PubCall → PublicationContext → Connection → PublicationContext × Connection
  | [], ctx, c => (ctx, c)
  | call :: rest, ctx, c =>
    let (ctx, c) := call.run ctx c
    runCalls rest ctx c

/-- The error `handleSubscribe` builds for a name with no handler. -/
def unknownSubscriptionError (name : String) : Error :=
  { Type_ := "Server.Error",
    Error := "unknown-subscription",
    Reason := "Subscription '" ++ name ++ "' not found",
    Message := "Subscription '" ++ name ++ "' not found [unknown-subscription]" }

/-- `handleSubscribe`.  The map keeps the pointer `ctx`; the handler is called on `*ctx`, a
value of its own, so what the handler does to its context does not reach the map entry. -/
def handleSubscribe (s : Server) (generateID : Nat → String) (c : Connection) (msg : Message) :
    Connection :=
  let ctx := NewPublicationContext msg c.copy
  let id := generateID 17
  let c := { c with subscriptions := c.subscriptions.set id ctx }
  match s.publications.get msg.Name with
  | none => sendSubscriptionError c ctx (unknownSubscriptionError msg.Name)
  | some handler =>
    let c := { c with calls := c.calls ++ [Call.publication msg.Name ctx] }
    (runCalls (handler ctx) ctx c).2

/-- The error `handleUnsubscribe` builds for an id that is not a key of the map. -/
def unknownSubscriptionIDError (id : String) : Error :=
  { Type_ := "Server.Error",
    Error := "unknown-subscription",
    Reason := "Subscription ID '" ++ id ++ "' not found",
    Message := "Subscription ID '" ++ id ++ "' not found [unknown-subscription]" }

/-- `handleUnsubscribe`. -/
def handleUnsubscribe (c : Connection) (msg : Message) : Connection :=
  match c.subscriptions.get msg.ID with
  | none =>
    writeMessage c (.message
      { Msg := "nosub", ID := msg.ID, Error := unknownSubscriptionIDError msg.ID })
  | some _ => { c with subscriptions := c.subscriptions.delete msg.ID }

/-- `handleMySubscription` of `server.go`. -/
def handleMySubscription : PublicationHandler :=
  fun _ => [PubCall.Ready]

/-! ## The reader -/

/-- What one `ReadMessage` followed by `json.Unmarshal` yields. -/
inductive Frame where
  | readError
  | undecodable
  | decoded (m : Message)
  deriving DecidableEq, Repr

/-- The `switch m.Msg` of `readPump`.  The `default` branch prints a line and does nothing
else. -/
def dispatch (s : Server) (generateID : Nat → String) (c : Connection) (m : Message) :
    Connection :=
  if m.Msg = "connect" then handleConnect generateID c m
  else if m.Msg = "ping" then handlePing c m
  else if m.Msg = "pong" then handlePong c m
  else if m.Msg = "method" then handleMethod s c m
  else if m.Msg = "sub" then handleSubscribe s generateID c m
  else if m.Msg = "unsub" then handleUnsubscribe c m
  else c

/-- The `for` loop of `readPump` over what the successive reads yield; `generateID k` is the
generator during iteration `k`.  A read error or an undecodable frame breaks the loop, as
does the end of the list (the transport yields nothing more).  The loop itself makes no
test of the websocket state. -/
def readLoop (s : Server) (generateID : Nat → Nat → String) :
    Nat → List Frame → Connection → Connection
  | _, [], c => c
  | _, .readError :: _, c => c
  | _, .undecodable :: _, c => c
  | k, .decoded m :: rest, c =>
    readLoop s generateID (k + 1) rest (dispatch s (generateID k) c m)

/-- A connection object is identified by its address. -/
abbrev ConnRef := Nat

/-- Requests on the channels `register` and `unregister` of the server. -/
inductive Request where
  | register (conn : ConnRef)
  | unregister (conn : ConnRef)
  deriving DecidableEq, Repr

/-- `readPump` for the connection at address `self`: the loop, then the deferred function,
which sends the unregister request and closes the websocket. -/
def readPump (s : Server) (generateID : Nat → Nat → String) (self : ConnRef)
    (frames : List Frame) (c : Connection) : Connection × List Request :=
  let c := readLoop s generateID 0 frames c
  ({ c with connClosed := true }, [Request.unregister self])

/-! ## The admission loop of the server -/

/-- What the goroutine of `Server.Run` works on: the map `s.connections`, and the
`close(conn.send)` statements it has executed, oldest first. -/
structure Admission where
  connections : GoMap ConnRef Bool := []
  closes : List ConnRef := []
  deriving DecidableEq, Repr

/-- One iteration of the `select` in `Server.Run`. -/
def Admission.step (a : Admission) : Request → Admission
  | .register conn => { a with connections := a.connections.set conn true }
  | .unregister conn =>
    match a.connections.get conn with
    | some _ => { connections := a.connections.delete conn, closes := a.closes ++ [conn] }
    | none => a

/-- The loop of `Server.Run` over the requests it receives, in order. -/
def Admission.run (a : Admission) : List Request → Admission
  | [] => a
  | r :: rest => (a.step r).run rest

/-! ## Concrete data used in the examples -/

/-- The server `main` builds in `server.go`, as far as publications go. -/
def mainServer : Server :=
  ({} : Server).Publish "mysubscription" handleMySubscription

/-- A generator answer of the requested length. -/
def sampleID : Nat → String :=
  fun _ => "23456789ABCDEFGHJ"

/-- Another generator answer of the requested length. -/
def otherID : Nat → String :=
  fun _ => "KLMNPQRSTWXYZabcd"

/-- The envelope `sub{id:"3", name:"mysubscription"}`. -/
def subThree : Message :=
  { Msg := "sub", ID := "3", Name := "mysubscription" }

/-- The `ready` envelope for subscription id `id`. -/
def readyMsg (id : String) : Outbound :=
  .object [("msg", .str "ready"), ("subs", .strs [id])]

/-- The `ready` envelopes a handler body enqueues when its context starts with id `id`: one
for each `Ready()` call, carrying the id the context value has at that call. -/
def readyMsgs : List PubCall → String → List Outbound
  | [], _ => []
  | .SetID id' :: rest, _ => readyMsgs rest id'
  | .Ready :: rest, id => readyMsg id :: readyMsgs rest id
  | _ :: rest, id => readyMsgs rest id

/-! ## Lemmas on maps -/

theorem GoMap.get_eq_none_of_not_key {κ α : Type} [DecidableEq κ] (m : GoMap κ α) (k : κ)
    (h : k ∉ m.map Prod.fst) : m.get k = none := by
  induction m with
  | nil => rfl
  | cons e rest ih =>
    obtain ⟨k', v⟩ := e
    simp only [List.map_cons, List.mem_cons, not_or] at h
    have hne : ¬ k' = k := fun hk => h.1 hk.symm
    simp only [GoMap.get, hne, if_false]
    exact ih h.2

theorem GoMap.get_set_self {κ α : Type} [DecidableEq κ] (m : GoMap κ α) (k : κ) (v : α) :
    (m.set k v).get k = some v := by
  induction m with
  | nil => simp [GoMap.set, GoMap.get]
  | cons e rest ih =>
    obtain ⟨k', v'⟩ := e
    by_cases hk : k' = k
    · simp [GoMap.set, GoMap.get, hk]
    · simp [GoMap.set, GoMap.get, hk, ih]

theorem GoMap.get_delete_self {κ α : Type} [DecidableEq κ] (m : GoMap κ α) (k : κ) :
    (m.delete k).get k = none := by
  induction m with
  | nil => rfl
  | cons e rest ih =>
    obtain ⟨k', v'⟩ := e
    by_cases hk : k' = k
    · simp [GoMap.delete, hk, ih]
    · simp [GoMap.delete, GoMap.get, hk, ih]

theorem GoMap.get_delete_ne {κ α : Type} [DecidableEq κ] (m : GoMap κ α) (k d : κ)
    (h : d ≠ k) : (m.delete d).get k = m.get k := by
  induction m with
  | nil => rfl
  | cons e rest ih =>
    obtain ⟨k', v'⟩ := e
    by_cases hd : k' = d
    · subst hd
      simp [GoMap.delete, GoMap.get, h, ih]
    · by_cases hk : k' = k
      · subst hk
        simp [GoMap.delete, GoMap.get, hd]
      · simp [GoMap.delete, GoMap.get, hd, hk, ih]

/-! ## Lemmas on handler bodies -/

theorem writeMessage_readyMsg (c : Connection) (id : String) :
    writeMessage c (readyMsg id) = { c with send := c.send ++ [readyMsg id] } := by
  simp [writeMessage, readyMsg, Outbound.marshals, JVal.marshals]

theorem GoMap.get_set_ne {κ α : Type} [DecidableEq κ] (m : GoMap κ α) (k d : κ) (v : α)
    (h : d ≠ k) : (m.set d v).get k = m.get k := by
  induction m with
  | nil => simp [GoMap.set, GoMap.get, h]
  | cons e rest ih =>
    obtain ⟨k', v'⟩ := e
    by_cases hd : k' = d
    · subst hd
      simp [GoMap.set, GoMap.get, h]
    · by_cases hk : k' = k
      · subst hk
        simp [GoMap.set, GoMap.get, hd]
      · simp [GoMap.set, GoMap.get, hd, hk, ih]

theorem runCalls_eq (calls : List PubCall) (ctx : PublicationContext) (c : Connection) :
    (runCalls calls ctx c).2 = { c with send := c.send ++ readyMsgs calls ctx.ID } := by
  induction calls generalizing ctx c with
  | nil => simp [runCalls, readyMsgs]
  | cons call rest ih =>
    cases call with
    | SetID id => simp [runCalls, PubCall.run, readyMsgs, ih]
    | SetParams params => simp [runCalls, PubCall.run, readyMsgs, ih]
    | Ready =>
      have hw := writeMessage_readyMsg c ctx.ID
      simp only [readyMsg] at hw
      simp [runCalls, PubCall.run, PublicationContext.Ready, sendSubscriptionReady,
        readyMsgs, readyMsg, ih, hw]
    | Added collection id fields =>
      simp [runCalls, PubCall.run, PublicationContext.Added, readyMsgs, ih]
    | Changed collection id fields =>
      simp [runCalls, PubCall.run, PublicationContext.Changed, readyMsgs, ih]
    | Removed collection id =>
      simp [runCalls, PubCall.run, PublicationContext.Removed, readyMsgs, ih]

/-! ## General form of the handler branches -/

/-- A handler that returns an error: the `result` message with that error is the only
message enqueued. -/
theorem handleMethod_of_handler_error (s : Server) (c : Connection) (msg : Message)
    (fn : MethodHandler) (r : Value) (err : Error)
    (hget : s.methods.get msg.Method = some fn)
    (herr : fn (NewMethodContext msg c.copy) = (r, some err)) :
    (handleMethod s c msg).send =
      c.send ++ [.object [("msg", .str "result"), ("id", .str msg.ID), ("error", .error err)]] := by
  simp only [handleMethod, hget, herr]
  simp [sendMethodError, writeMessage, Outbound.marshals, JVal.marshals, NewMethodContext]

/-- A name with no publication: the context stored before the lookup stays in the map. -/
theorem handleSubscribe_of_unknown_name (s : Server) (generateID : Nat → String)
    (c : Connection) (msg : Message) (hget : s.publications.get msg.Name = none) :
    (handleSubscribe s generateID c msg).subscriptions.get (generateID 17) =
      some (NewPublicationContext msg c.copy) ∧
    (handleSubscribe s generateID c msg).calls = c.calls := by
  simp [handleSubscribe, hget, sendSubscriptionError, writeMessage, Outbound.marshals,
    JVal.marshals, GoMap.get_set_self]

/-- An id that is a key of the subscription map: the entry is deleted and nothing is
enqueued. -/
theorem handleUnsubscribe_of_known_key (c : Connection) (msg : Message)
    (ctx : PublicationContext) (hget : c.subscriptions.get msg.ID = some ctx) :
    handleUnsubscribe c msg = { c with subscriptions := c.subscriptions.delete msg.ID } := by
  simp [handleUnsubscribe, hget]

/-- An id that is not a key of the subscription map: one `nosub` with the error is enqueued
and the map is left alone. -/
theorem handleUnsubscribe_of_unknown_key (c : Connection) (msg : Message)
    (hget : c.subscriptions.get msg.ID = none) :
    handleUnsubscribe c msg =
      { c with send := c.send ++ [.message
        { Msg := "nosub", ID := msg.ID, Error := unknownSubscriptionIDError msg.ID }] } := by
  simp [handleUnsubscribe, hget, writeMessage, Outbound.marshals]

/-! ## Handshake -/

/-- C5: `handleConnect` on a version other than "1" enqueues exactly one `failed` message
carrying version "1", closes the transport and keeps the session id; on version "1" it sets
the session id to the generator's answer for length 17, leaves the transport as it was and
enqueues exactly one `connected` message whose session field is that session id. -/
theorem handleConnect_spec (generateID : Nat → String) (c : Connection) (msg : Message) :
    (msg.Version ≠ "1" →
      (handleConnect generateID c msg).send =
        c.send ++ [.object [("msg", .str "failed"), ("version", .str "1")]] ∧
      (handleConnect generateID c msg).connClosed = true ∧
      (handleConnect generateID c msg).sessionID = c.sessionID) ∧
    (msg.Version = "1" →
      (handleConnect generateID c msg).sessionID = generateID 17 ∧
      (handleConnect generateID c msg).connClosed = c.connClosed ∧
      (handleConnect generateID c msg).send =
        c.send ++ [.object [("msg", .str "connected"),
          ("session", .str (handleConnect generateID c msg).sessionID)]]) := by
  constructor
  · intro h
    simp [handleConnect, h, sendFailed, writeMessage, Outbound.marshals, JVal.marshals,
      protocolVersion]
  · intro h
    have h' : msg.Version = protocolVersion := h
    simp [handleConnect, h', sendConnected, writeMessage, Outbound.marshals, JVal.marshals]

/-- Witness for C5: version "0" on a fresh connection, and version "1" on a fresh
connection. -/
theorem handleConnect_spec_witness :
    ((handleConnect sampleID {} { Msg := "connect", Version := "0" }).send =
        [.object [("msg", .str "failed"), ("version", .str "1")]] ∧
      (handleConnect sampleID {} { Msg := "connect", Version := "0" }).connClosed = true ∧
      (handleConnect sampleID {} { Msg := "connect", Version := "0" }).sessionID = "") ∧
    ((handleConnect sampleID {} { Msg := "connect", Version := "1" }).sessionID
        = "23456789ABCDEFGHJ" ∧
      (handleConnect sampleID {} { Msg := "connect", Version := "1" }).connClosed = false ∧
      (handleConnect sampleID {} { Msg := "connect", Version := "1" }).send =
        [.object [("msg", .str "connected"),
          ("session", .str (handleConnect sampleID {} { Msg := "connect", Version := "1" }).sessionID)]]) :=
  ⟨(handleConnect_spec sampleID {} { Msg := "connect", Version := "0" }).1 (by decide),
   (handleConnect_spec sampleID {} { Msg := "connect", Version := "1" }).2 (by decide)⟩

/-! ## Methods -/

/-- C6: for a method message whose name is not a key of the method table, `handleMethod`
calls no handler and enqueues one `result` message with the id of the request, an error
object of type "Method.Error" and code "unknown-method", and no result value. -/
theorem handleMethod_unknown (s : Server) (c : Connection) (msg : Message)
    (h : msg.Method ∉ s.methods.map Prod.fst) :
    (handleMethod s c msg).calls = c.calls ∧
    ∃ r e, (handleMethod s c msg).send = c.send ++ [r] ∧
      r.field "msg" = some (.str "result") ∧
      r.field "id" = some (.str msg.ID) ∧
      r.field "error" = some (.error e) ∧
      e.Type_ = "Method.Error" ∧ e.Error = "unknown-method" ∧
      r.field "result" = none := by
  have hget := GoMap.get_eq_none_of_not_key s.methods msg.Method h
  refine ⟨by simp [handleMethod, hget, sendMethodError, writeMessage, Outbound.marshals,
    JVal.marshals], ?_⟩
  refine ⟨.object [("msg", .str "result"), ("id", .str msg.ID),
    ("error", .error (unknownMethodError msg.Method))], unknownMethodError msg.Method, ?_⟩
  refine ⟨?_, ?_, ?_, ?_, rfl, rfl, ?_⟩
  · simp [handleMethod, hget, sendMethodError, writeMessage, Outbound.marshals,
      JVal.marshals, NewMethodContext]
  · simp [Outbound.field, lookupEntry]
  · simp [Outbound.field, lookupEntry]
  · simp [Outbound.field, lookupEntry]
  · simp [Outbound.field, lookupEntry]

/-- Witness for C6: the method "nope" on a server with no methods. -/
theorem handleMethod_unknown_witness :
    (handleMethod {} {} { Msg := "method", ID := "2", Method := "nope" }).calls = [] ∧
    ∃ r e, (handleMethod {} {} { Msg := "method", ID := "2", Method := "nope" }).send = [] ++ [r] ∧
      r.field "msg" = some (.str "result") ∧
      r.field "id" = some (.str "2") ∧
      r.field "error" = some (.error e) ∧
      e.Type_ = "Method.Error" ∧ e.Error = "unknown-method" ∧
      r.field "result" = none :=
  handleMethod_unknown {} {} { Msg := "method", ID := "2", Method := "nope" } (by simp)

/-- C1 (the code at the failing inputs): for the unregistered name "nope", and for a
registered handler that returns an error, `handleMethod` enqueues the `result` message
alone; no `updated` message follows.  A handler that returns a value gets both. -/
theorem handleMethod_error_no_updated :
    (handleMethod {} {} { Msg := "method", ID := "2", Method := "nope" }).send =
      [.object [("msg", .str "result"), ("id", .str "2"),
        ("error", .error (Error.mk "Method.Error" "unknown-method"
          "Method 'nope' not found" "Method 'nope' not found [unknown]"))]] ∧
    (handleMethod
        (({} : Server).Method "fail" fun _ =>
          (Value.null, some (Error.mk "Method.Error" "wrong-params"
            "Missing required parameter" "")))
        {} { Msg := "method", ID := "2", Method := "fail" }).send =
      [.object [("msg", .str "result"), ("id", .str "2"),
        ("error", .error (Error.mk "Method.Error" "wrong-params"
          "Missing required parameter" ""))]] ∧
    (handleMethod
        (({} : Server).Method "ok" fun _ => (Value.str "Hello Miguel", none))
        {} { Msg := "method", ID := "2", Method := "ok" }).send =
      [.object [("msg", .str "result"), ("id", .str "2"),
          ("result", .value (.str "Hello Miguel"))],
        .object [("msg", .str "updated"), ("methods", .strs ["2"])]] := by
  refine ⟨?_, ?_, ?_⟩ <;> rfl

/-! ## Subscriptions -/

/-- C4 (the code at the failing input): `sub{id:"3", name:"nope"}` on a fresh connection
calls no handler and enqueues one `nosub` with id "3" and error code "unknown-subscription",
but the context stored before the lookup stays in the subscription map, which was empty
before the call. -/
theorem handleSubscribe_unknown_keeps_entry :
    (handleSubscribe mainServer sampleID {} { Msg := "sub", ID := "3", Name := "nope" }).calls
      = [] ∧
    (handleSubscribe mainServer sampleID {} { Msg := "sub", ID := "3", Name := "nope" }).send =
      [.object [("msg", .str "nosub"), ("id", .str "3"),
        ("error", .error (Error.mk "Server.Error" "unknown-subscription"
          "Subscription 'nope' not found"
          "Subscription 'nope' not found [unknown-subscription]"))]] ∧
    (handleSubscribe mainServer sampleID {}
        { Msg := "sub", ID := "3", Name := "nope" }).subscriptions =
      [("23456789ABCDEFGHJ", PublicationContext.mk "3" [] (ConnCopy.mk false "" "") false)] ∧
    (handleSubscribe mainServer sampleID {}
        { Msg := "sub", ID := "3", Name := "nope" }).subscriptions ≠
      ({} : Connection).subscriptions := by
  refine ⟨rfl, rfl, rfl, ?_⟩
  decide

/-- C7 (the code at the failing input): `sub{id:"3", name:"mysubscription"}` with
`handleMySubscription` registered enqueues exactly one `ready` message with subs ["3"], and
the context recorded in the subscription map still has its ready flag false, since `Ready()`
acted on the handler's own copy. -/
theorem handleSubscribe_ready_flag_not_recorded :
    (handleSubscribe mainServer sampleID {} subThree).send =
      [.object [("msg", .str "ready"), ("subs", .strs ["3"])]] ∧
    (handleSubscribe mainServer sampleID {} subThree).subscriptions =
      [("23456789ABCDEFGHJ", PublicationContext.mk "3" [] (ConnCopy.mk false "" "") false)] ∧
    ((handleSubscribe mainServer sampleID {} subThree).subscriptions.get
        "23456789ABCDEFGHJ").map PublicationContext.ready = some false := by
  refine ⟨rfl, rfl, rfl⟩

/-- C2 (the code at the failing input): after `sub{id:"3", name:"mysubscription"}`, the
message `unsub{id:"3"}` is answered with a `nosub` carrying the error
"unknown-subscription" and the subscription map is left as it was, since the subscription
sits under the generated key.  When the id of the `unsub` is that key, the entry is removed
and nothing is enqueued. -/
theorem handleUnsubscribe_after_subscribe :
    (handleUnsubscribe (handleSubscribe mainServer sampleID {} subThree)
        { Msg := "unsub", ID := "3" }).send =
      (handleSubscribe mainServer sampleID {} subThree).send ++
        [.message { Msg := "nosub", ID := "3",
                    Error := Error.mk "Server.Error" "unknown-subscription"
                      "Subscription ID '3' not found"
                      "Subscription ID '3' not found [unknown-subscription]" }] ∧
    (handleUnsubscribe (handleSubscribe mainServer sampleID {} subThree)
        { Msg := "unsub", ID := "3" }).subscriptions =
      [("23456789ABCDEFGHJ", PublicationContext.mk "3" [] (ConnCopy.mk false "" "") false)] ∧
    (handleUnsubscribe (handleSubscribe mainServer sampleID {} subThree)
        { Msg := "unsub", ID := "23456789ABCDEFGHJ" }).subscriptions = [] ∧
    (handleUnsubscribe (handleSubscribe mainServer sampleID {} subThree)
        { Msg := "unsub", ID := "23456789ABCDEFGHJ" }).send =
      (handleSubscribe mainServer sampleID {} subThree).send := by
  refine ⟨rfl, rfl, rfl, rfl⟩

/-- C3 (counterexample): a connection that holds the subscription with id "3" handles
`sub{id:"3", name:"mysubscription"}` once more: the subscription map changes (a second entry
with id "3" appears), the handler is called a second time and a second `ready` message is
enqueued. -/
theorem handleSubscribe_again_not_noop :
    (handleSubscribe mainServer sampleID {} subThree).subscriptions =
      [("23456789ABCDEFGHJ", PublicationContext.mk "3" [] (ConnCopy.mk false "" "") false)] ∧
    (handleSubscribe mainServer otherID
        (handleSubscribe mainServer sampleID {} subThree) subThree).subscriptions =
      [("23456789ABCDEFGHJ", PublicationContext.mk "3" [] (ConnCopy.mk false "" "") false),
       ("KLMNPQRSTWXYZabcd", PublicationContext.mk "3" [] (ConnCopy.mk false "" "") false)] ∧
    (handleSubscribe mainServer otherID
        (handleSubscribe mainServer sampleID {} subThree) subThree).subscriptions ≠
      (handleSubscribe mainServer sampleID {} subThree).subscriptions ∧
    (handleSubscribe mainServer otherID
        (handleSubscribe mainServer sampleID {} subThree) subThree).calls =
      (handleSubscribe mainServer sampleID {} subThree).calls ++
        [Call.publication "mysubscription"
          (PublicationContext.mk "3" [] (ConnCopy.mk false "" "") false)] ∧
    (handleSubscribe mainServer otherID
        (handleSubscribe mainServer sampleID {} subThree) subThree).send =
      (handleSubscribe mainServer sampleID {} subThree).send ++
        [.object [("msg", .str "ready"), ("subs", .strs ["3"])]] := by
  refine ⟨rfl, rfl, ?_, rfl, rfl⟩
  decide

/-- C3 (amended): `handleSubscribe` makes no check for an existing subscription.  For every
connection that already holds a subscription with id `i`, a further sub message with the
same id `i` is handled like a first one.  When it names a registered publication, the
handler is called once more, on a new context built from the message, every `Ready()` call
of the handler enqueues a `ready` message carrying the id its context has at that call, and
the map afterwards holds a subscription with id `i` and the parameters of the message.  When
it names no registered publication, no handler is called and exactly one `nosub` message
with id `i` and error code "unknown-subscription" is enqueued. -/
theorem handleSubscribe_existing_id (s : Server) (generateID : Nat → String) (c : Connection)
    (msg : Message)
    (_hheld : ∃ k ctx, c.subscriptions.get k = some ctx ∧ ctx.ID = msg.ID) :
    (∀ handler, s.publications.get msg.Name = some handler →
      (handleSubscribe s generateID c msg).calls =
        c.calls ++ [Call.publication msg.Name (NewPublicationContext msg c.copy)] ∧
      (handleSubscribe s generateID c msg).send =
        c.send ++ readyMsgs (handler (NewPublicationContext msg c.copy)) msg.ID ∧
      ∃ k ctx, (handleSubscribe s generateID c msg).subscriptions.get k = some ctx ∧
        ctx.ID = msg.ID ∧ ctx.Params = msg.Params) ∧
    (s.publications.get msg.Name = none →
      (handleSubscribe s generateID c msg).calls = c.calls ∧
      ∃ e, (handleSubscribe s generateID c msg).send =
          c.send ++ [.object [("msg", .str "nosub"), ("id", .str msg.ID), ("error", .error e)]] ∧
        e.Error = "unknown-subscription") := by
  constructor
  · intro handler h
    have hrun := runCalls_eq (handler (NewPublicationContext msg c.copy))
      (NewPublicationContext msg c.copy)
      { c with
        subscriptions :=
          c.subscriptions.set (generateID 17) (NewPublicationContext msg c.copy),
        calls := c.calls ++ [Call.publication msg.Name (NewPublicationContext msg c.copy)] }
    have hs : handleSubscribe s generateID c msg =
        (runCalls (handler (NewPublicationContext msg c.copy))
          (NewPublicationContext msg c.copy)
          { c with
            subscriptions :=
              c.subscriptions.set (generateID 17) (NewPublicationContext msg c.copy),
            calls :=
              c.calls ++ [Call.publication msg.Name (NewPublicationContext msg c.copy)] }).2 := by
      simp only [handleSubscribe, h]
    rw [hs, hrun]
    refine ⟨rfl, rfl, generateID 17, NewPublicationContext msg c.copy, ?_, rfl, rfl⟩
    exact GoMap.get_set_self c.subscriptions (generateID 17) (NewPublicationContext msg c.copy)
  · intro h
    refine ⟨?_, unknownSubscriptionError msg.Name, ?_, rfl⟩
    · simp [handleSubscribe, h, sendSubscriptionError, writeMessage, Outbound.marshals,
        JVal.marshals]
    · simp [handleSubscribe, h, sendSubscriptionError, writeMessage, Outbound.marshals,
        JVal.marshals, NewPublicationContext]

/-- Witness for the amended C3: on the connection that holds subscription "3" after a first
`sub{id:"3", name:"mysubscription"}`, the same message once more, and `sub{id:"3"}` for
the unpublished name "nope". -/
theorem handleSubscribe_existing_id_witness :
    ((handleSubscribe mainServer otherID
          (handleSubscribe mainServer sampleID {} subThree) subThree).calls =
        (handleSubscribe mainServer sampleID {} subThree).calls ++
          [Call.publication subThree.Name
            (NewPublicationContext subThree
              (handleSubscribe mainServer sampleID {} subThree).copy)] ∧
      (handleSubscribe mainServer otherID
          (handleSubscribe mainServer sampleID {} subThree) subThree).send =
        (handleSubscribe mainServer sampleID {} subThree).send ++
          readyMsgs
            (handleMySubscription
              (NewPublicationContext subThree
                (handleSubscribe mainServer sampleID {} subThree).copy))
            subThree.ID ∧
      ∃ k ctx, (handleSubscribe mainServer otherID
          (handleSubscribe mainServer sampleID {} subThree) subThree).subscriptions.get k =
            some ctx ∧
        ctx.ID = subThree.ID ∧ ctx.Params = subThree.Params) ∧
    ((handleSubscribe mainServer otherID (handleSubscribe mainServer sampleID {} subThree)
          { Msg := "sub", ID := "3", Name := "nope" }).calls =
        (handleSubscribe mainServer sampleID {} subThree).calls ∧
      ∃ e, (handleSubscribe mainServer otherID (handleSubscribe mainServer sampleID {} subThree)
            { Msg := "sub", ID := "3", Name := "nope" }).send =
          (handleSubscribe mainServer sampleID {} subThree).send ++
            [.object [("msg", .str "nosub"),
              ("id", .str ({ Msg := "sub", ID := "3", Name := "nope" } : Message).ID),
              ("error", .error e)]] ∧
        e.Error = "unknown-subscription") :=
  ⟨(handleSubscribe_existing_id mainServer otherID
      (handleSubscribe mainServer sampleID {} subThree) subThree
      ⟨"23456789ABCDEFGHJ", PublicationContext.mk "3" [] (ConnCopy.mk false "" "") false,
        rfl, rfl⟩).1 handleMySubscription rfl,
   (handleSubscribe_existing_id mainServer otherID
      (handleSubscribe mainServer sampleID {} subThree)
      { Msg := "sub", ID := "3", Name := "nope" }
      ⟨"23456789ABCDEFGHJ", PublicationContext.mk "3" [] (ConnCopy.mk false "" "") false,
        rfl, rfl⟩).2 rfl⟩

/-! ## Document operations of a publication context -/

/-- C8 (counterexample): on a connection with no subscription at all, so that nothing asserts
the key ("tasks", "t1"), `Added("tasks", "t1", {title: "x"})` enqueues nothing, both called
directly and called by a publication handler during `handleSubscribe`. -/
theorem Added_enqueues_nothing_example :
    ((NewPublicationContext subThree ({} : Connection).copy).Added {} "tasks" "t1"
        [("title", Value.str "x")]).2.send = [] ∧
    (handleSubscribe
        (({} : Server).Publish "tasks" fun _ =>
          [PubCall.Added "tasks" "t1" [("title", Value.str "x")]])
        sampleID {} { Msg := "sub", ID := "3", Name := "tasks" }).send = [] := by
  refine ⟨rfl, rfl⟩

/-- C8 (amended): for every subscription context, connection state, collection name,
document id and field map, `Added` enqueues no message and leaves the context and the
connection as they were; no message of kind `added` enters the outbound queue. -/
theorem Added_noop (ctx : PublicationContext) (c : Connection) (collection id : String)
    (fields : GoMap String Value) :
    (ctx.Added c collection id fields).2.send = c.send ∧
    ctx.Added c collection id fields = (ctx, c) ∧
    (runCalls [.Added collection id fields] ctx c).2 = c := by
  refine ⟨rfl, rfl, rfl⟩

/-! ## The reader -/

/-- C9 (counterexample): a decoded message of kind "bogus" followed by `ping{id:"7"}`: the
loop goes on to the ping and answers it with `pong{id:"7"}`; after the message of kind
"bogus" alone the transport is still open and nothing was enqueued. -/
theorem readLoop_unknown_kind_continues :
    (readLoop mainServer (fun _ => sampleID) 0
        [.decoded { Msg := "bogus" }, .decoded { Msg := "ping", ID := "7" }] {}).send =
      [.object [("msg", .str "pong"), ("id", .str "7")]] ∧
    (readLoop mainServer (fun _ => sampleID) 0
        [.decoded { Msg := "bogus" }, .decoded { Msg := "ping", ID := "7" }] {}).connClosed =
      false ∧
    dispatch mainServer sampleID {} { Msg := "bogus" } = {} := by
  refine ⟨rfl, rfl, rfl⟩

/-- C9 (amended): for every decoded message whose kind is none of connect, ping, pong,
method, sub, unsub, the dispatch step changes nothing (no handler runs, nothing is enqueued,
the transport is not closed), and the read loop goes on with the next incoming frame. -/
theorem dispatch_unknown_kind (s : Server) (generateID : Nat → Nat → String) (k : Nat)
    (c : Connection) (m : Message) (rest : List Frame)
    (h : m.Msg ∉ ["connect", "ping", "pong", "method", "sub", "unsub"]) :
    dispatch s (generateID k) c m = c ∧
    readLoop s generateID k (.decoded m :: rest) c = readLoop s generateID (k + 1) rest c := by
  simp only [List.mem_cons, List.mem_singleton, List.not_mem_nil, or_false, not_or] at h
  obtain ⟨h1, h2, h3, h4, h5, h6⟩ := h
  have hd : dispatch s (generateID k) c m = c := by
    simp [dispatch, h1, h2, h3, h4, h5, h6]
  refine ⟨hd, ?_⟩
  simp [readLoop, hd]

/-- Witness for the amended C9: kind "bogus" in front of a ping on a fresh connection. -/
theorem dispatch_unknown_kind_witness :
    dispatch mainServer ((fun _ => sampleID) 0) {} { Msg := "bogus" } = {} ∧
    readLoop mainServer (fun _ => sampleID) 0
        (.decoded { Msg := "bogus" } :: [.decoded { Msg := "ping", ID := "7" }]) {} =
      readLoop mainServer (fun _ => sampleID) (0 + 1)
        [.decoded { Msg := "ping", ID := "7" }] {} :=
  dispatch_unknown_kind mainServer (fun _ => sampleID) 0 {} { Msg := "bogus" }
    [.decoded { Msg := "ping", ID := "7" }] (by decide)

/-! ## The admission loop -/

theorem Admission.run_closes_absent (conn : ConnRef) (rs : List Request) (a : Admission)
    (hall : ∀ r ∈ rs, ∃ d, r = Request.unregister d)
    (habs : a.connections.get conn = none) :
    (a.run rs).closes.count conn = a.closes.count conn := by
  induction rs generalizing a with
  | nil => rfl
  | cons r rest ih =>
    obtain ⟨d, rfl⟩ := hall r (List.mem_cons_self _ _)
    have hrest : ∀ r ∈ rest, ∃ d, r = Request.unregister d :=
      fun r hr => hall r (List.mem_cons_of_mem _ hr)
    simp only [Admission.run, Admission.step]
    by_cases hd : d = conn
    · subst hd
      simp only [habs]
      exact ih a hrest habs
    · cases hg : a.connections.get d with
      | none => exact ih a hrest habs
      | some v =>
        have := ih { connections := a.connections.delete d, closes := a.closes ++ [d] } hrest
          (by simpa [GoMap.get_delete_ne a.connections conn d hd] using habs)
        rw [this]
        simp [List.count_append, List.count_cons, hd]

theorem Admission.run_closes_present (conn : ConnRef) (rs : List Request) (a : Admission)
    (hall : ∀ r ∈ rs, ∃ d, r = Request.unregister d)
    (hmem : Request.unregister conn ∈ rs) (v : Bool)
    (hpres : a.connections.get conn = some v) :
    (a.run rs).closes.count conn = a.closes.count conn + 1 := by
  induction rs generalizing a with
  | nil => simp at hmem
  | cons r rest ih =>
    obtain ⟨d, rfl⟩ := hall r (List.mem_cons_self _ _)
    have hrest : ∀ r ∈ rest, ∃ d, r = Request.unregister d :=
      fun r hr => hall r (List.mem_cons_of_mem _ hr)
    simp only [Admission.run, Admission.step]
    by_cases hd : d = conn
    · subst hd
      simp only [hpres]
      rw [Admission.run_closes_absent d rest _ hrest (GoMap.get_delete_self _ _)]
      simp [List.count_append]
    · have hmem' : Request.unregister conn ∈ rest := by
        rcases List.mem_cons.mp hmem with heq | hin
        · exact absurd (Request.unregister.inj heq).symm hd
        · exact hin
      cases hg : a.connections.get d with
      | none => exact ih a hrest hmem' hpres
      | some w =>
        have := ih { connections := a.connections.delete d, closes := a.closes ++ [d] } hrest
          hmem' (by simpa [GoMap.get_delete_ne a.connections conn d hd] using hpres)
        rw [this]
        simp [List.count_append, List.count_cons, hd]

/-- C10: in the admission loop, an unregister request for a connection in the connection
set removes it from the set and closes its send channel; an unregister request for a
connection not in the set changes nothing; hence after a register of a connection whose
channel was not closed before, every sequence of unregister requests that contains one for
that connection closes its send channel exactly once. -/
theorem Admission.unregister_closes_once (a : Admission) (conn : ConnRef) :
    (∀ v, a.connections.get conn = some v →
      (a.step (.unregister conn)).connections = a.connections.delete conn ∧
      (a.step (.unregister conn)).connections.get conn = none ∧
      (a.step (.unregister conn)).closes = a.closes ++ [conn]) ∧
    (a.connections.get conn = none → a.step (.unregister conn) = a) ∧
    (∀ rs : List Request, (∀ r ∈ rs, ∃ d, r = Request.unregister d) →
      Request.unregister conn ∈ rs → conn ∉ a.closes →
      ((a.step (.register conn)).run rs).closes.count conn = 1) := by
  refine ⟨?_, ?_, ?_⟩
  · intro v hv
    have hstep : a.step (.unregister conn) =
        { connections := a.connections.delete conn, closes := a.closes ++ [conn] } := by
      simp only [Admission.step, hv]
    rw [hstep]
    exact ⟨rfl, GoMap.get_delete_self _ _, rfl⟩
  · intro hn
    simp only [Admission.step, hn]
  · intro rs hall hmem hfresh
    have hreg : (a.step (.register conn)).connections.get conn = some true := by
      simp only [Admission.step]
      exact GoMap.get_set_self _ _ _
    rw [Admission.run_closes_present conn rs _ hall hmem true hreg]
    simp only [Admission.step]
    rw [List.count_eq_zero_of_not_mem hfresh]

/-- Witness for C10: connection 1 in the set; connection 1 not in the set; and register of
connection 1 followed by unregister requests for 1, 2 and 1 again. -/
theorem Admission.unregister_closes_once_witness :
    (({ connections := [(1, true)] } : Admission).step (.unregister 1)).closes = [] ++ [1] ∧
    ({} : Admission).step (.unregister 1) = {} ∧
    ((({} : Admission).step (.register 1)).run
      [.unregister 1, .unregister 2, .unregister 1]).closes.count 1 = 1 :=
  ⟨((Admission.unregister_closes_once { connections := [(1, true)] } 1).1 true rfl).2.2,
   (Admission.unregister_closes_once {} 1).2.1 rfl,
   (Admission.unregister_closes_once {} 1).2.2 [.unregister 1, .unregister 2, .unregister 1]
     (by
       intro r hr
       simp only [List.mem_cons, List.mem_singleton, List.not_mem_nil, or_false] at hr
       rcases hr with rfl | rfl | rfl <;> exact ⟨_, rfl⟩)
     (by decide) (by decide)⟩

end ddpserver
